import Mathlib

/-!
Verification development for the insurance-claim decision pipeline in
`04-Shap-Transform` (agent.py, demo_lightweight.py, claim_classifier.py,
api_server.py).  The Python code is shallowly embedded: dictionaries become
structures with `Option` fields (a `none` field models an absent key),
floats become rationals, and the one source of nondeterminism — the demo
classifier's `random.uniform(-0.05, 0.05)` jitter — becomes an explicit
argument.  The learned model (`QwenClaimClassifier.predict`) and the SHAP
explainer are external collaborators and appear only as function parameters.
-/

namespace InsuranceClaims

/- Rational arithmetic is `@[irreducible]` upstream; concrete runs of the
embedded code are evaluated by `decide`, which needs these to unfold. -/
attribute [local semireducible] Rat.add Rat.mul Rat.inv Rat.sub Rat.ofScientific

/-! ## Python string primitives -/

/-- Python `needle in haystack` (substring containment) on lists of
characters: `w` occurs as a contiguous infix.  The empty needle is contained
in everything, as in Python. -/
def listInfix (w : List Char) : List Char → Bool
  | [] => w.isEmpty
  | a :: t => w.isPrefixOf (a :: t) || listInfix w t

/-- Python `w in s` for strings. -/
def pyIn (w s : String) : Bool :=
  listInfix w.data s.data

/-- Python `str.lower()`.  `String.toLower` itself is defined by well-founded
recursion on byte positions, which the kernel cannot evaluate, so the
embedding lowers the character list directly (same result). -/
def pyLower (s : String) : String :=
  String.mk (s.data.map Char.toLower)

/-- Python `str.split()` with no separator: split on whitespace and drop
empty pieces. -/
def pyWhitespaceSplit (cs : List Char) : List (List Char) :=
  (cs.splitOnP Char.isWhitespace).filter (fun t => !t.isEmpty)

/-- Whitespace stripping as done by Python `float(str)` on its argument. -/
def pyStripChars (cs : List Char) : List Char :=
  ((cs.dropWhile Char.isWhitespace).reverse.dropWhile Char.isWhitespace).reverse

/-- Value of a digit string read left to right. -/
def digitsVal : List Char → ℕ → ℕ
  | [], acc => acc
  | c :: t, acc => digitsVal t (acc * 10 + (c.toNat - '0'.toNat))

/-- Approximation of Python `float(str)` on plain decimal literals: optional
surrounding whitespace, an optional sign, digits with an optional fractional
part.  Exponents, underscores and inf/nan are not modelled; no verified claim
depends on inputs of those shapes (the parse result only feeds the
claim-amount adjustment, which is clipped away in every verified bound). -/
def pyFloat (s : List Char) : Option ℚ :=
  let cs := pyStripChars s
  let signed : ℚ × List Char :=
    match cs with
    | '-' :: t => (-1, t)
    | '+' :: t => (1, t)
    | _ => (1, cs)
  let intPart := signed.2.takeWhile Char.isDigit
  let rest := signed.2.dropWhile Char.isDigit
  match rest with
  | [] =>
    if intPart.isEmpty then none
    else some (signed.1 * (digitsVal intPart 0 : ℚ))
  | '.' :: frac =>
    if frac.all Char.isDigit && !(intPart.isEmpty && frac.isEmpty) then
      some (signed.1 * ((digitsVal intPart 0 : ℚ) +
        (digitsVal frac 0 : ℚ) / (10 ^ frac.length)))
    else none
  | _ => none

/-! ## Python number formatting

Rounding is modelled as round-half-up on the exact rational; CPython formats
the nearest binary double instead.  The two agree on every concrete value
exercised in this development, and no verified claim depends on the digits
these functions produce. -/

/-- Three-digit zero-padded rendering of `n < 1000`. -/
def pad3 (n : ℕ) : String :=
  if n < 10 then "00" ++ toString n
  else if n < 100 then "0" ++ toString n
  else toString n

/-- Two-digit zero-padded rendering of `n < 100`. -/
def pad2 (n : ℕ) : String :=
  if n < 10 then "0" ++ toString n else toString n

/-- Comma insertion into a reversed digit list: a separator after every
three digits, provided more digits remain. -/
def addCommasRev : List Char → List Char
  | a :: b :: c :: d :: rest => a :: b :: c :: ',' :: addCommasRev (d :: rest)
  | l => l

/-- Decimal rendering of a natural number with thousands separators, as in
Python format spec `,`. -/
def commaGroup (n : ℕ) : String :=
  String.mk (addCommasRev (toString n).data.reverse).reverse

/-- Python `format(x, ",.2f")`: two decimals, thousands separators. -/
def formatMoney (q : ℚ) : String :=
  let sign := if q < 0 then "-" else ""
  let cents : ℕ := (round (|q| * 100)).toNat
  sign ++ commaGroup (cents / 100) ++ "." ++ pad2 (cents % 100)

/-- Python `format(x, ".1%")`: percentage with one decimal place. -/
def formatPercent1 (q : ℚ) : String :=
  let sign := if q < 0 then "-" else ""
  let perMille : ℕ := (round (|q| * 1000)).toNat
  sign ++ toString (perMille / 10) ++ "." ++ toString (perMille % 10) ++ "%"

/-- Python `format(x, ".3f")`: three decimal places. -/
def formatFixed3 (q : ℚ) : String :=
  let sign := if q < 0 then "-" else ""
  let thousandths : ℕ := (round (|q| * 1000)).toNat
  sign ++ toString (thousandths / 1000) ++ "." ++ pad3 (thousandths % 1000)

/-! ## Data model -/

/-- The `claim_data` dictionary fed to the workflow.  A `none` field models a
key that is absent from the dictionary (every read in the source goes through
`dict.get` with a default). -/
structure ClaimData where
  claim_id : Option String := none
  policy_type : Option String := none
  amount : Option ℚ := none
  description : Option String := none
  medical_reports : Option String := none
  previous_claims : Option ℕ := none
  policy_duration_months : Option ℕ := none
deriving DecidableEq

/-- One audit-trail entry from `state['messages']`. -/
structure Message where
  role : String
  content : String
deriving DecidableEq

/-- One entry of `top_features` in an explanation dictionary. -/
structure FeatureContribution where
  feature : String
  shap_value : ℚ
  impact : String
deriving DecidableEq

/-- An explanation dictionary.  `MockClassifier.get_explanation` populates
`base_value` and `method`; `get_simple_explanation` omits `base_value`;
the initial state's empty dictionary omits everything. -/
structure Explanation where
  top_features : List FeatureContribution := []
  base_value : Option ℚ := none
  method : Option String := none
deriving DecidableEq

/-- The `ClaimState` TypedDict of agent.py / demo_lightweight.py. -/
structure ClaimState where
  claim_data : ClaimData
  claim_text : String
  prediction : String
  confidence : ℚ
  shap_explanation : Explanation
  decision_reasoning : String
  messages : List Message
  requires_human_review : Bool
deriving DecidableEq

/-! ## Keyword weight tables (in Python dict insertion order) -/

/-- `MockClassifier.keywords` from demo_lightweight.py, in insertion order. -/
def mockKeywords : List (String × ℚ) :=
  [("emergency", 0.3), ("surgery", 0.25), ("accident", 0.2), ("hospital", 0.15),
   ("diagnosis", 0.15), ("necessary", 0.1), ("confirmed", 0.1), ("fraud", -0.5),
   ("suspicious", -0.4), ("elective", -0.3), ("cosmetic", -0.35),
   ("unauthorized", -0.35)]

/-- The `keywords` dict of `QwenClaimClassifier.get_simple_explanation`
(claim_classifier.py), in insertion order. -/
def simpleKeywords : List (String × ℚ) :=
  [("emergency", 0.3), ("surgery", 0.25), ("accident", 0.2), ("hospital", 0.15),
   ("diagnosis", 0.15), ("fraud", -0.5), ("suspicious", -0.4), ("false", -0.3),
   ("unauthorized", -0.35)]

/-! ## MockClassifier (demo_lightweight.py) -/

/-- Claim-amount extraction inside `MockClassifier.predict`:
`text.split('$')[1].split()[0].replace(',', '')` passed to `float`, with the
whole attempt guarded by `try/except: pass` (a missing token or a failed
parse yields no adjustment). -/
def extractAmount (text : String) : Option ℚ :=
  if pyIn "$" text then
    match (text.data.splitOn '$').drop 1 with
    | [] => none
    | afterDollar :: _ =>
      match pyWhitespaceSplit afterDollar with
      | [] => none
      | tok :: _ => pyFloat (tok.filter (fun ch => ch != ','))
  else none

/-- The claim-amount score adjustment of `MockClassifier.predict`. -/
def amountAdjust (text : String) : ℚ :=
  match extractAmount text with
  | some amount => if amount > 100000 then -0.2 else if amount < 5000 then 0.1 else 0
  | none => 0

namespace MockClassifier

/-- `MockClassifier.predict`.  `j` is the value drawn by
`random.uniform(-0.05, 0.05)`, passed explicitly; a run with the jitter
disabled passes `j = 0`.  Returns the pair `(reject_prob, approve_prob)`. -/
def predict (text : String) (j : ℚ) : ℚ × ℚ :=
  let text_lower := pyLower text
  let score : ℚ :=
    mockKeywords.foldl (fun acc kw => if pyIn kw.1 text_lower then acc + kw.2 else acc) 0.5
  let score := score + amountAdjust text
  let score := max 0.1 (min 0.9 score)
  let score := score + j
  let score := max 0.1 (min 0.9 score)
  (1 - score, score)

end MockClassifier

/-- Impact tag attached to a keyword feature: `'positive' if w > 0 else 'negative'`. -/
def impactLabel (w : ℚ) : String :=
  if w > 0 then "positive" else "negative"

/-- Comparison used by the Python sorts
`sort(key=lambda x: abs(x['shap_value']), reverse=True)`: descending absolute
contribution.  Python list sort is a stable sort under this total preorder;
the embedding realizes it with the stable `List.insertionSort`. -/
def absDescR (a b : FeatureContribution) : Prop :=
  |b.shap_value| ≤ |a.shap_value|

instance : DecidableRel absDescR :=
  fun a b => inferInstanceAs (Decidable (|b.shap_value| ≤ |a.shap_value|))

instance : IsTotal FeatureContribution absDescR :=
  ⟨fun a b => le_total |b.shap_value| |a.shap_value|⟩

instance : IsTrans FeatureContribution absDescR :=
  ⟨fun _ _ _ hab hbc => le_trans hbc hab⟩

/-- The unsorted feature list collected by `MockClassifier.get_explanation`:
one entry per table keyword occurring in the lowered text, in table order. -/
def mockFeatures (text : String) : List FeatureContribution :=
  mockKeywords.filterMap (fun kw =>
    if pyIn kw.1 (pyLower text) then
      some { feature := kw.1, shap_value := kw.2, impact := impactLabel kw.2 }
    else none)

/-- `MockClassifier.get_explanation`. -/
def MockClassifier.get_explanation (text : String) : Explanation :=
  { top_features := List.insertionSort absDescR (mockFeatures text),
    base_value := some 0.5,
    method := some "keyword_based" }

/-- The unsorted feature list collected by `get_simple_explanation`. -/
def simpleFeatures (text : String) : List FeatureContribution :=
  simpleKeywords.filterMap (fun kw =>
    if pyIn kw.1 (pyLower text) then
      some { feature := kw.1, shap_value := kw.2, impact := impactLabel kw.2 }
    else none)

/-- `QwenClaimClassifier.get_simple_explanation` (claim_classifier.py), the
rule-based fallback explainer.  Its result dictionary has no `base_value`. -/
def get_simple_explanation (text : String) : Explanation :=
  { top_features := List.insertionSort absDescR (simpleFeatures text),
    method := some "rule_based" }

/-! ## Claim text rendering (preprocess stage)

Both agents build the same f-string template and call `.strip()`; since the
template begins and ends with non-whitespace literals, `.strip()` removes
exactly the outer newlines, so the stripped result is modelled directly. -/

/-- Rendering of the `Claim ID` field: `claim_data.get('claim_id', 'N/A')`. -/
def shownId (c : ClaimData) : String := c.claim_id.getD "N/A"

/-- Rendering of the `Policy Type` field. -/
def shownPolicy (c : ClaimData) : String := c.policy_type.getD "N/A"

/-- Rendering of the `Claim Amount` field (without the `$` sign):
`format(claim_data.get('amount', 0), ',.2f')`. -/
def shownAmount (c : ClaimData) : String := formatMoney (c.amount.getD 0)

/-- Rendering of the `Description` field. -/
def shownDesc (c : ClaimData) : String := c.description.getD "N/A"

/-- Rendering of the `Medical Reports` field:
`claim_data.get('medical_reports', 'None provided')`. -/
def shownMedical (c : ClaimData) : String := c.medical_reports.getD "None provided"

/-- Rendering of the `Previous Claims` field: `claim_data.get('previous_claims', 0)`. -/
def shownPrev (c : ClaimData) : String := toString (c.previous_claims.getD 0)

/-- Rendering of the `Policy Duration` count: `claim_data.get('policy_duration_months', 0)`. -/
def shownDuration (c : ClaimData) : String := toString (c.policy_duration_months.getD 0)

/-- The formatted claim text built by `preprocess_claim` (identical template
in agent.py and demo_lightweight.py). -/
def claimTextOf (c : ClaimData) : String :=
  "Claim ID: " ++ shownId c ++
  "\nPolicy Type: " ++ shownPolicy c ++
  "\nClaim Amount: $" ++ shownAmount c ++
  "\nDescription: " ++ shownDesc c ++
  "\nMedical Reports: " ++ shownMedical c ++
  "\nPrevious Claims: " ++ shownPrev c ++
  "\nPolicy Duration: " ++ shownDuration c ++ " months"

/-- Python rendering of `claim_data.get('claim_id')` inside an f-string: a
missing key prints as `None`. -/
def pyShowOptStr : Option String → String
  | some s => s
  | none => "None"

/-! ## Pipeline stages

The classifier strategy (`predict`) and the explanation strategy (`explain`)
are parameters: agent.py wires in the learned `QwenClaimClassifier` (an
external collaborator) while demo_lightweight.py wires in `MockClassifier`. -/

/-- `SimpleLangGraphAgent.preprocess_claim` (demo_lightweight.py). -/
def demoPreprocess (s : ClaimState) : ClaimState :=
  let c := s.claim_data
  { s with
    claim_text := claimTextOf c,
    messages := s.messages ++
      [⟨"system", "✓ Preprocessed claim " ++ pyShowOptStr c.claim_id⟩] }

/-- `ClaimProcessingAgent.preprocess_claim` (agent.py): same claim text, but
its audit message reads `Processing claim: <id>` with default `Unknown`. -/
def agentPreprocess (s : ClaimState) : ClaimState :=
  let c := s.claim_data
  { s with
    claim_text := claimTextOf c,
    messages := s.messages ++
      [⟨"system", "Processing claim: " ++ c.claim_id.getD "Unknown"⟩] }

/-- `SimpleLangGraphAgent.classify_claim`: label is `APPROVED` iff the
approval probability `probs[1]` exceeds 0.5, confidence is `max(probs)`. -/
def demoClassify (predict : String → ℚ × ℚ) (s : ClaimState) : ClaimState :=
  let probs := predict s.claim_text
  let prediction := if probs.2 > 0.5 then "APPROVED" else "REJECTED"
  let confidence := max probs.1 probs.2
  { s with
    prediction := prediction,
    confidence := confidence,
    messages := s.messages ++
      [⟨"assistant", "✓ Classification: " ++ prediction ++
        " (confidence: " ++ formatPercent1 confidence ++ ")"⟩] }

/-- `ClaimProcessingAgent.classify_claim` (agent.py): identical decision
logic, audit message without the leading check mark. -/
def agentClassify (predict : String → ℚ × ℚ) (s : ClaimState) : ClaimState :=
  let probs := predict s.claim_text
  let prediction := if probs.2 > 0.5 then "APPROVED" else "REJECTED"
  let confidence := max probs.1 probs.2
  { s with
    prediction := prediction,
    confidence := confidence,
    messages := s.messages ++
      [⟨"assistant", "Classification: " ++ prediction ++
        " (confidence: " ++ formatPercent1 confidence ++ ")"⟩] }

/-- The human-readable reasoning text built in `explain_decision` (identical
in both agents): header lines followed by the top five features. -/
def reasoningOf (prediction : String) (confidence : ℚ)
    (top_features : List FeatureContribution) : String :=
  let bullets := (top_features.take 5).map (fun f =>
    "  • \x27" ++ f.feature ++ "\x27 (impact: " ++ formatFixed3 (|f.shap_value|) ++
      ", " ++ (if f.shap_value > 0 then "supporting approval" else "supporting rejection") ++
      ")")
  String.intercalate "\n"
    (["Decision: " ++ prediction,
      "Confidence: " ++ formatPercent1 confidence,
      "",
      "Key factors influencing this decision:"] ++ bullets)

/-- `explain_decision`: identical in agent.py (with `use_shap=False`) and
demo_lightweight.py, up to the choice of `explain` strategy. -/
def explainDecision (explain : String → Explanation) (s : ClaimState) : ClaimState :=
  let explanation := explain s.claim_text
  let reasoning := reasoningOf s.prediction s.confidence explanation.top_features
  { s with
    shap_explanation := explanation,
    decision_reasoning := reasoning,
    messages := s.messages ++ [⟨"assistant", reasoning⟩] }

/-- The routing predicate `check_confidence_threshold` (agent.py), identical
to `check_confidence` (demo_lightweight.py). -/
def check_confidence (threshold : ℚ) (s : ClaimState) : String :=
  if s.confidence < threshold then "human_review" else "finalize"

/-- `SimpleLangGraphAgent.request_human_review`: sets the review flag,
appends an audit message, and appends the qualifier to the label. -/
def demoHumanReview (s : ClaimState) : ClaimState :=
  { s with
    requires_human_review := true,
    messages := s.messages ++
      [⟨"system", "⚠️ Confidence (" ++ formatPercent1 s.confidence ++
        ") below threshold. Flagging for human review."⟩],
    prediction := s.prediction ++ " - PENDING HUMAN REVIEW" }

/-- `ClaimProcessingAgent.request_human_review` (agent.py): same effect, but
its audit message also prints the threshold. -/
def agentHumanReview (threshold : ℚ) (s : ClaimState) : ClaimState :=
  { s with
    requires_human_review := true,
    messages := s.messages ++
      [⟨"system", "⚠️ Confidence (" ++ formatPercent1 s.confidence ++
        ") below threshold (" ++ formatPercent1 threshold ++
        "). Flagging for human review."⟩],
    prediction := s.prediction ++ " - PENDING HUMAN REVIEW" }

/-- `finalize_decision`: identical in both agents. -/
def finalizeDecision (s : ClaimState) : ClaimState :=
  { s with
    requires_human_review := false,
    messages := s.messages ++
      [⟨"system", "✓ Claim decision finalized: " ++ s.prediction⟩] }

/-- The initial state built by `process_claim` in both agents. -/
def initialState (c : ClaimData) : ClaimState :=
  { claim_data := c, claim_text := "", prediction := "", confidence := 0,
    shap_explanation := {}, decision_reasoning := "", messages := [],
    requires_human_review := false }

/-! ## Orchestrators -/

/-- The five pipeline stage functions plus the routing predicate, the shape
shared by the graph-based and the single-pass orchestrator. -/
structure Stages where
  pre : ClaimState → ClaimState
  cls : ClaimState → ClaimState
  exp : ClaimState → ClaimState
  check : ClaimState → String
  rev : ClaimState → ClaimState
  fin : ClaimState → ClaimState

/-- `SimpleLangGraphAgent.process_claim` body: strictly sequential stages
with one conditional branch on the routing predicate. -/
def seqRun (st : Stages) (s0 : ClaimState) : ClaimState :=
  let s1 := st.pre s0
  let s2 := st.cls s1
  let s3 := st.exp s2
  if st.check s3 = "human_review" then st.rev s3 else st.fin s3

/-- The node names of the LangGraph workflow built by `_build_workflow`. -/
inductive Node
  | preprocess
  | classify
  | explain
  | human_review
  | finalize
deriving DecidableEq

/-- Node payload: which stage function each graph node runs. -/
def applyNode (st : Stages) : Node → ClaimState → ClaimState
  | .preprocess, s => st.pre s
  | .classify, s => st.cls s
  | .explain, s => st.exp s
  | .human_review, s => st.rev s
  | .finalize, s => st.fin s

/-- The conditional-edge mapping of `_build_workflow`: the string returned by
the routing predicate is looked up in the dict
`(human_review -> human_review, finalize -> finalize)`. -/
def condTarget (key : String) : Option Node :=
  if key = "human_review" then some .human_review
  else if key = "finalize" then some .finalize
  else none

/-- Successor function of the compiled workflow graph: the linear edges
`preprocess -> classify -> explain`, the conditional edge after `explain`,
and edges to `END` (`none`) from both terminal nodes. -/
def nextNode (st : Stages) : Node → ClaimState → Option Node
  | .preprocess, _ => some .classify
  | .classify, _ => some .explain
  | .explain, s => condTarget (st.check s)
  | .human_review, _ => none
  | .finalize, _ => none

/-- Executor for the compiled graph: run the current node, then follow the
outgoing edge, stopping at `END`.  The graph is acyclic with at most four
node visits, so fuel 5 always reaches `END`. -/
def runGraph (st : Stages) : ℕ → Node → ClaimState → ClaimState
  | 0, _, s => s
  | fuel + 1, node, s =>
    let s1 := applyNode st node s
    match nextNode st node s1 with
    | none => s1
    | some m => runGraph st fuel m s1

/-- The stage functions of `ClaimProcessingAgent` (agent.py). -/
def agentStages (predict : String → ℚ × ℚ) (explain : String → Explanation)
    (threshold : ℚ) : Stages :=
  { pre := agentPreprocess, cls := agentClassify predict,
    exp := explainDecision explain, check := check_confidence threshold,
    rev := agentHumanReview threshold, fin := finalizeDecision }

/-- The stage functions of `SimpleLangGraphAgent` (demo_lightweight.py). -/
def demoStages (predict : String → ℚ × ℚ) (explain : String → Explanation)
    (threshold : ℚ) : Stages :=
  { pre := demoPreprocess, cls := demoClassify predict,
    exp := explainDecision explain, check := check_confidence threshold,
    rev := demoHumanReview, fin := finalizeDecision }

/-- `ClaimProcessingAgent.process_claim`: invoke the compiled workflow graph
on the initial state. -/
def agentProcessClaim (predict : String → ℚ × ℚ) (explain : String → Explanation)
    (threshold : ℚ) (c : ClaimData) : ClaimState :=
  runGraph (agentStages predict explain threshold) 5 .preprocess (initialState c)

/-- `SimpleLangGraphAgent.process_claim`: run the stages sequentially. -/
def demoProcessClaim (predict : String → ℚ × ℚ) (explain : String → Explanation)
    (threshold : ℚ) (c : ClaimData) : ClaimState :=
  seqRun (demoStages predict explain threshold) (initialState c)

/-! ## Batch API (api_server.py) -/

/-- The pydantic `ClaimRequest` model: `claim_id`, `policy_type`, `amount`
and `description` are required, the rest are optional with defaults. -/
structure ClaimRequest where
  claim_id : String
  policy_type : String
  amount : ℚ
  description : String
  medical_reports : Option String := none
  previous_claims : ℕ := 0
  policy_duration_months : ℕ := 0
deriving DecidableEq

/-- A successful per-claim record built by `batch_process_claims`. -/
structure BatchRecord where
  claim_id : String
  prediction : String
  confidence : ℚ
  requires_human_review : Bool
deriving DecidableEq

/-- A per-claim error record: `(claim_id, str(exception))`. -/
structure BatchErrorRecord where
  claim_id : String
  error : String
deriving DecidableEq

/-- One result slot of the batch response. -/
inductive BatchItem
  | ok : BatchRecord → BatchItem
  | err : BatchErrorRecord → BatchItem
deriving DecidableEq

/-- The dictionary returned by `batch_process_claims`. -/
structure BatchResponse where
  total : ℕ
  processed : ℕ
  results : List BatchItem
deriving DecidableEq

/-- The per-claim `try/except` body of the batch loop.  `proc` models
`agent.process_claim`, which may raise (`Except.error` carries `str(e)`).
Reading `result['claim_data']['claim_id']` raises `KeyError` when the key is
absent; that exception is caught by the same `except` and recorded with
`str(KeyError('claim_id')) = 'claim_id' in quotes`. -/
def batchSlot (proc : ClaimRequest → Except String ClaimState)
    (claim : ClaimRequest) : BatchItem :=
  match proc claim with
  | .error e => .err ⟨claim.claim_id, e⟩
  | .ok st =>
    match st.claim_data.claim_id with
    | some cid => .ok ⟨cid, st.prediction, st.confidence, st.requires_human_review⟩
    | none => .err ⟨claim.claim_id, "\x27claim_id\x27"⟩

/-- `batch_process_claims` (api_server.py): reject batches of more than 100
claims wholesale, otherwise process every claim independently, collecting one
result slot per claim in input order. -/
def batch_process_claims (proc : ClaimRequest → Except String ClaimState)
    (claims : List ClaimRequest) : Except String BatchResponse :=
  if claims.length > 100 then
    .error "Maximum 100 claims per batch"
  else
    let results := claims.map (batchSlot proc)
    .ok { total := claims.length, processed := results.length, results := results }

/-! ## Theorems -/

/-- The routing predicate returns one of the two edge keys on every state. -/
lemma check_confidence_binary (threshold : ℚ) (s : ClaimState) :
    check_confidence threshold s = "human_review"
    ∨ check_confidence threshold s = "finalize" := by
  unfold check_confidence
  by_cases h : s.confidence < threshold
  · exact Or.inl (if_pos h)
  · exact Or.inr (if_neg h)

/-- Executing the five-node workflow graph with any stage functions whose
routing predicate returns one of the two edge keys is the same as running the
stages sequentially with one conditional branch. -/
lemma runGraph_five (st : Stages) (s0 : ClaimState)
    (hcheck : ∀ s, st.check s = "human_review" ∨ st.check s = "finalize") :
    runGraph st 5 .preprocess s0 = seqRun st s0 := by
  rcases hcheck (st.exp (st.cls (st.pre s0))) with h | h <;>
    simp [runGraph, applyNode, nextNode, condTarget, seqRun, h]

/-- C1: for every claim run that reaches the routing stage, the final state
has `requires_human_review = true` iff the run's confidence is strictly below
the configured threshold; the human-review branch sets the flag true, the
finalize branch sets it false. -/
theorem C1_review_iff_below_threshold
    (predict : String → ℚ × ℚ) (explain : String → Explanation)
    (threshold : ℚ) (c : ClaimData) :
    ((demoProcessClaim predict explain threshold c).requires_human_review = true ↔
      (demoProcessClaim predict explain threshold c).confidence < threshold)
    ∧ ((agentProcessClaim predict explain threshold c).requires_human_review = true ↔
      (agentProcessClaim predict explain threshold c).confidence < threshold)
    ∧ (∀ s : ClaimState, (demoHumanReview s).requires_human_review = true)
    ∧ (∀ s : ClaimState, (agentHumanReview threshold s).requires_human_review = true)
    ∧ (∀ s : ClaimState, (finalizeDecision s).requires_human_review = false) := by
  refine ⟨?_, ?_, fun s => rfl, fun s => rfl, fun s => rfl⟩
  · simp only [demoProcessClaim, seqRun, demoStages, check_confidence]
    set s3 := explainDecision explain (demoClassify predict (demoPreprocess (initialState c)))
    by_cases h : s3.confidence < threshold
    · rw [if_pos h, if_pos rfl]
      simp [demoHumanReview, h]
    · rw [if_neg h, if_neg (by decide)]
      simp [finalizeDecision, h]
  · have hg : agentProcessClaim predict explain threshold c =
        seqRun (agentStages predict explain threshold) (initialState c) :=
      runGraph_five _ _ (fun s => check_confidence_binary threshold s)
    rw [hg]
    simp only [seqRun, agentStages, check_confidence]
    set s3 := explainDecision explain (agentClassify predict (agentPreprocess (initialState c)))
    by_cases h : s3.confidence < threshold
    · rw [if_pos h, if_pos rfl]
      simp [agentHumanReview, h]
    · rw [if_neg h, if_neg (by decide)]
      simp [finalizeDecision, h]

/-- C2: the classifier stage labels a claim `APPROVED` iff the approval
probability (second component of the predicted pair) strictly exceeds 0.5,
and records as confidence the maximum of the two class probabilities — in
both the demo agent and the graph agent. -/
theorem C2_label_iff_approve_prob_above_half
    (predict : String → ℚ × ℚ) (s : ClaimState) :
    (((demoClassify predict s).prediction = "APPROVED" ↔
        (0.5 : ℚ) < (predict s.claim_text).2)
      ∧ (demoClassify predict s).confidence =
          max (predict s.claim_text).1 (predict s.claim_text).2)
    ∧ (((agentClassify predict s).prediction = "APPROVED" ↔
        (0.5 : ℚ) < (predict s.claim_text).2)
      ∧ (agentClassify predict s).confidence =
          max (predict s.claim_text).1 (predict s.claim_text).2) := by
  by_cases h : (0.5 : ℚ) < (predict s.claim_text).2
  · simp [demoClassify, agentClassify, h]
  · simp [demoClassify, agentClassify, h]

/-- C3: with the random jitter disabled (both sampled jitters pinned to 0),
two runs of the deterministic fallback classifier on the same text produce
the same probability pair, hence the same prediction, and the rule-based
explainers produce the same explanation both times. -/
theorem C3_determinism_with_jitter_disabled
    (text : String) (j₁ j₂ : ℚ) (h₁ : j₁ = 0) (h₂ : j₂ = 0) :
    MockClassifier.predict text j₁ = MockClassifier.predict text j₂
    ∧ (∀ s : ClaimState,
        demoClassify (fun t => MockClassifier.predict t j₁) s =
        demoClassify (fun t => MockClassifier.predict t j₂) s)
    ∧ MockClassifier.get_explanation text = MockClassifier.get_explanation text
    ∧ get_simple_explanation text = get_simple_explanation text := by
  subst h₁
  subst h₂
  exact ⟨rfl, fun _ => rfl, rfl, rfl⟩

/-- Witness for C3 at a concrete input. -/
theorem C3_determinism_with_jitter_disabled_witness :
    MockClassifier.predict "Emergency surgery for appendicitis" 0 =
      MockClassifier.predict "Emergency surgery for appendicitis" 0 :=
  (C3_determinism_with_jitter_disabled "Emergency surgery for appendicitis" 0 0 rfl rfl).1

/-- C5: when a run is routed to human review its stored label is the base
classifier label with the qualifier appended (the base label survives as a
prefix); when the run is finalized the label is the unqualified base label.
Holds for both the demo agent and the graph agent. -/
theorem C5_review_label_appends_qualifier
    (predict : String → ℚ × ℚ) (explain : String → Explanation)
    (threshold : ℚ) (c : ClaimData) :
    (let s3 := explainDecision explain (demoClassify predict (demoPreprocess (initialState c)))
     let r := demoProcessClaim predict explain threshold c
     (s3.prediction = "APPROVED" ∨ s3.prediction = "REJECTED")
       ∧ r.prediction =
          (if r.confidence < threshold then s3.prediction ++ " - PENDING HUMAN REVIEW"
           else s3.prediction))
    ∧ (let t3 := explainDecision explain (agentClassify predict (agentPreprocess (initialState c)))
       let a := agentProcessClaim predict explain threshold c
       (t3.prediction = "APPROVED" ∨ t3.prediction = "REJECTED")
         ∧ a.prediction =
            (if a.confidence < threshold then t3.prediction ++ " - PENDING HUMAN REVIEW"
             else t3.prediction)) := by
  constructor
  · refine ⟨?_, ?_⟩
    · by_cases h : (0.5 : ℚ) <
        (predict (demoPreprocess (initialState c)).claim_text).2
      · exact Or.inl (by simp [explainDecision, demoClassify, h])
      · exact Or.inr (by simp [explainDecision, demoClassify, h])
    · simp only [demoProcessClaim, seqRun, demoStages, check_confidence]
      set s3 := explainDecision explain (demoClassify predict (demoPreprocess (initialState c)))
      by_cases h : s3.confidence < threshold
      · rw [if_pos h, if_pos rfl]
        simp [demoHumanReview, h]
      · rw [if_neg h, if_neg (by decide)]
        simp [finalizeDecision, h]
  · refine ⟨?_, ?_⟩
    · by_cases h : (0.5 : ℚ) <
        (predict (agentPreprocess (initialState c)).claim_text).2
      · exact Or.inl (by simp [explainDecision, agentClassify, h])
      · exact Or.inr (by simp [explainDecision, agentClassify, h])
    · have hg : agentProcessClaim predict explain threshold c =
          seqRun (agentStages predict explain threshold) (initialState c) :=
        runGraph_five _ _ (fun s => check_confidence_binary threshold s)
      rw [hg]
      simp only [seqRun, agentStages, check_confidence]
      set t3 := explainDecision explain (agentClassify predict (agentPreprocess (initialState c)))
      by_cases h : t3.confidence < threshold
      · rw [if_pos h, if_pos rfl]
        simp [agentHumanReview, h]
      · rw [if_neg h, if_neg (by decide)]
        simp [finalizeDecision, h]

/-- C6: a batch strictly larger than the 100-claim cap is rejected wholesale
with the batch-size error, and no claim is processed: the result does not
depend on the per-claim processing function at all. -/
theorem C6_oversized_batch_rejected_wholesale
    (proc proc2 : ClaimRequest → Except String ClaimState)
    (claims : List ClaimRequest) (h : claims.length > 100) :
    batch_process_claims proc claims = Except.error "Maximum 100 claims per batch"
    ∧ batch_process_claims proc claims = batch_process_claims proc2 claims := by
  unfold batch_process_claims
  rw [if_pos h]
  exact ⟨rfl, by rw [if_pos h]⟩

/-- A sample request used in concrete batch witnesses. -/
def sampleRequest : ClaimRequest :=
  { claim_id := "CLM-2024-001", policy_type := "Health Insurance",
    amount := 15000, description := "Emergency surgery for appendicitis" }

/-- A processing function that always raises. -/
def procAlwaysFails (_ : ClaimRequest) : Except String ClaimState :=
  .error "model unavailable"

/-- A processing function that runs the demo pipeline, raising only on a
designated claim id. -/
def procFailingOn (bad : String) (r : ClaimRequest) : Except String ClaimState :=
  if r.claim_id = bad then .error "ClassificationError"
  else .ok (demoProcessClaim (fun t => MockClassifier.predict t 0)
    MockClassifier.get_explanation 0.7
    { claim_id := some r.claim_id, policy_type := some r.policy_type,
      amount := some r.amount, description := some r.description,
      medical_reports := r.medical_reports, previous_claims := some r.previous_claims,
      policy_duration_months := some r.policy_duration_months })

/-- Witness for C6: a batch of 101 claims fails wholesale. -/
theorem C6_oversized_batch_rejected_wholesale_witness :
    batch_process_claims procAlwaysFails (List.replicate 101 sampleRequest) =
      Except.error "Maximum 100 claims per batch" :=
  (C6_oversized_batch_rejected_wholesale procAlwaysFails
    (procFailingOn "x") (List.replicate 101 sampleRequest) (by simp)).1

/-- C7: a batch within the size cap returns exactly one result slot per claim
in input order; a claim whose processing raises yields an error record with
that claim's identifier in its slot, and every other claim still yields a
normal decision record. -/
theorem C7_batch_isolates_per_claim_failures
    (proc : ClaimRequest → Except String ClaimState)
    (claims : List ClaimRequest) (h : claims.length ≤ 100) :
    ∃ resp : BatchResponse,
      batch_process_claims proc claims = Except.ok resp
      ∧ resp.total = claims.length
      ∧ resp.results.length = claims.length
      ∧ (∀ i e, (hi : i < claims.length) → proc claims[i] = Except.error e →
          resp.results[i]? = some (BatchItem.err ⟨claims[i].claim_id, e⟩))
      ∧ (∀ i st cid, (hi : i < claims.length) → proc claims[i] = Except.ok st →
          st.claim_data.claim_id = some cid →
          resp.results[i]? = some (BatchItem.ok
            ⟨cid, st.prediction, st.confidence, st.requires_human_review⟩)) := by
  refine ⟨{ total := claims.length, processed := (claims.map (batchSlot proc)).length,
            results := claims.map (batchSlot proc) }, ?_, rfl, by simp, ?_, ?_⟩
  · unfold batch_process_claims
    rw [if_neg (by omega)]
  · intro i e hi he
    simp only [List.getElem?_map, List.getElem?_eq_getElem hi, Option.map_some]
    simp [batchSlot, he]
  · intro i st cid hi hok hcid
    simp only [List.getElem?_map, List.getElem?_eq_getElem hi, Option.map_some]
    simp [batchSlot, hok, hcid]

/-- Witness for C7: in a batch of three claims whose middle claim raises, the
middle slot is an error record carrying that claim's id and the other slots
are decision records. -/
theorem C7_batch_isolates_per_claim_failures_witness :
    ∃ resp : BatchResponse,
      batch_process_claims (procFailingOn "B")
        [{ sampleRequest with claim_id := "A" },
         { sampleRequest with claim_id := "B" },
         { sampleRequest with claim_id := "C" }] = Except.ok resp
      ∧ resp.total = 3 ∧ resp.results.length = 3
      ∧ (∀ i e, (hi : i < 3) →
          procFailingOn "B" ([{ sampleRequest with claim_id := "A" },
            { sampleRequest with claim_id := "B" },
            { sampleRequest with claim_id := "C" }] : List ClaimRequest)[i] = Except.error e →
          resp.results[i]? = some (BatchItem.err
            ⟨([{ sampleRequest with claim_id := "A" },
               { sampleRequest with claim_id := "B" },
               { sampleRequest with claim_id := "C" }] : List ClaimRequest)[i].claim_id, e⟩))
      ∧ (∀ i st cid, (hi : i < 3) →
          procFailingOn "B" ([{ sampleRequest with claim_id := "A" },
            { sampleRequest with claim_id := "B" },
            { sampleRequest with claim_id := "C" }] : List ClaimRequest)[i] = Except.ok st →
          st.claim_data.claim_id = some cid →
          resp.results[i]? = some (BatchItem.ok
            ⟨cid, st.prediction, st.confidence, st.requires_human_review⟩)) :=
  C7_batch_isolates_per_claim_failures (procFailingOn "B")
    [{ sampleRequest with claim_id := "A" },
     { sampleRequest with claim_id := "B" },
     { sampleRequest with claim_id := "C" }] (by simp)

/-- C10: the fallback classifier's score is clipped to [0.1, 0.9] before and
after the jitter, the returned pair is `(1 - score, score)`, so the reported
confidence always lies in [0.5, 0.9]; hence a threshold at or below 0.5 never
routes to human review and a threshold above 0.9 always does. -/
theorem C10_confidence_between_half_and_nine_tenths
    (text : String) (j threshold : ℚ) (s : ClaimState)
    (hs : s.confidence =
      max (MockClassifier.predict text j).1 (MockClassifier.predict text j).2) :
    ((1 : ℚ)/10 ≤ (MockClassifier.predict text j).2
      ∧ (MockClassifier.predict text j).2 ≤ 9/10)
    ∧ (MockClassifier.predict text j).1 = 1 - (MockClassifier.predict text j).2
    ∧ ((1 : ℚ)/2 ≤ s.confidence ∧ s.confidence ≤ 9/10)
    ∧ (threshold ≤ 1/2 → check_confidence threshold s = "finalize")
    ∧ (9/10 < threshold → check_confidence threshold s = "human_review") := by
  have hfst : (MockClassifier.predict text j).1 =
      1 - (MockClassifier.predict text j).2 := rfl
  have hlo : (1 : ℚ)/10 ≤ (MockClassifier.predict text j).2 := by
    show (1 : ℚ)/10 ≤ max 0.1 _
    have : (0.1 : ℚ) = 1/10 := by norm_num
    rw [← this]
    exact le_max_left _ _
  have hhi : (MockClassifier.predict text j).2 ≤ 9/10 := by
    show max 0.1 (min 0.9 _) ≤ 9/10
    refine max_le (by norm_num) ?_
    calc min (0.9 : ℚ) _ ≤ 0.9 := min_le_left _ _
      _ = 9/10 := by norm_num
  have hconf_lo : (1 : ℚ)/2 ≤ s.confidence := by
    rw [hs]
    rcases le_total ((MockClassifier.predict text j).2) (1/2) with hle | hle
    · refine le_trans ?_ (le_max_left _ _)
      rw [hfst]
      linarith
    · exact le_trans hle (le_max_right _ _)
  have hconf_hi : s.confidence ≤ 9/10 := by
    rw [hs]
    refine max_le ?_ hhi
    rw [hfst]
    linarith
  refine ⟨⟨hlo, hhi⟩, hfst, ⟨hconf_lo, hconf_hi⟩, ?_, ?_⟩
  · intro ht
    unfold check_confidence
    rw [if_neg (not_lt.mpr (le_trans ht hconf_lo))]
  · intro ht
    unfold check_confidence
    rw [if_pos (lt_of_le_of_lt hconf_hi ht)]

/-- A concrete state whose confidence is the fallback classifier's output on
the empty text with jitter 0. -/
def c10State : ClaimState :=
  { initialState {} with
    confidence := max (MockClassifier.predict "" 0).1 (MockClassifier.predict "" 0).2 }

/-- Witness for C10: with threshold 0.5 the concrete run finalizes, with
threshold 0.91 it is routed to human review. -/
theorem C10_confidence_between_half_and_nine_tenths_witness :
    check_confidence (1/2) c10State = "finalize"
    ∧ check_confidence (91/100) c10State = "human_review" :=
  ⟨(C10_confidence_between_half_and_nine_tenths "" 0 (1/2) c10State rfl).2.2.2.1
      (le_refl _),
   (C10_confidence_between_half_and_nine_tenths "" 0 (91/100) c10State rfl).2.2.2.2
      (by norm_num)⟩

/-! ## C4: ordering of explanation contributions -/

/-- Index of the first occurrence of `w` as a substring of `s` (one past the
length when absent).  Spec-side notion used to state the claimed tie-breaking
rule. -/
def firstOcc (s w : String) : ℕ :=
  (((List.range (s.data.length + 1)).find?
      (fun i => w.data.isPrefixOf (s.data.drop i))).getD (s.data.length + 1))

/-- The ordering claimed by the spec for explanation contribution lists:
descending absolute contribution, and contributions with equal absolute value
in order of their first occurrence in the (lowered) input text. -/
def claimContributionOrder (text : String) (l : List FeatureContribution) : Prop :=
  l.Pairwise (fun a b => |b.shap_value| ≤ |a.shap_value|)
  ∧ l.Pairwise (fun a b => |a.shap_value| = |b.shap_value| →
      firstOcc (pyLower text) a.feature ≤ firstOcc (pyLower text) b.feature)

instance : DecidableRel (fun a b : FeatureContribution => |b.shap_value| ≤ |a.shap_value|) :=
  fun a b => inferInstanceAs (Decidable (|b.shap_value| ≤ |a.shap_value|))

instance (text : String) : DecidableRel
    (fun a b : FeatureContribution => |a.shap_value| = |b.shap_value| →
      firstOcc (pyLower text) a.feature ≤ firstOcc (pyLower text) b.feature) :=
  fun a b => inferInstanceAs (Decidable ((|a.shap_value| = |b.shap_value|) →
    firstOcc (pyLower text) a.feature ≤ firstOcc (pyLower text) b.feature))

instance (text : String) (l : List FeatureContribution) :
    Decidable (claimContributionOrder text l) := by
  unfold claimContributionOrder
  infer_instance

/-- C4 counterexample: on the text `elective emergency` the mock explainer
emits the tied contributions (`emergency` +0.3, `elective` −0.3) in
keyword-table order, so `elective` — which occurs first in the text — is
listed second, violating the claimed first-occurrence tie-breaking. -/
theorem C4_counterexample :
    ¬ claimContributionOrder "elective emergency"
        (MockClassifier.get_explanation "elective emergency").top_features := by
  decide

/-- C4 amended: contributions are ordered by descending absolute value, and
two contributions with equal absolute value appear in the order of the
keyword table (the Python sort is stable and the unsorted list is collected
in table order), not in first-occurrence order.  Holds for the mock explainer
and the rule-based explainer alike. -/
theorem C4_sorted_desc_with_table_order_ties (text : String) :
    ((MockClassifier.get_explanation text).top_features.Pairwise
        (fun a b => |b.shap_value| ≤ |a.shap_value|)
      ∧ ∀ a b : FeatureContribution, |a.shap_value| = |b.shap_value| →
          List.Sublist [a, b] (mockFeatures text) →
          List.Sublist [a, b] (MockClassifier.get_explanation text).top_features)
    ∧ ((get_simple_explanation text).top_features.Pairwise
        (fun a b => |b.shap_value| ≤ |a.shap_value|)
      ∧ ∀ a b : FeatureContribution, |a.shap_value| = |b.shap_value| →
          List.Sublist [a, b] (simpleFeatures text) →
          List.Sublist [a, b] (get_simple_explanation text).top_features) := by
  refine ⟨⟨?_, ?_⟩, ?_, ?_⟩
  · exact List.sorted_insertionSort absDescR (mockFeatures text)
  · exact fun a b h hsub => List.pair_sublist_insertionSort (le_of_eq h.symm) hsub
  · exact List.sorted_insertionSort absDescR (simpleFeatures text)
  · exact fun a b h hsub => List.pair_sublist_insertionSort (le_of_eq h.symm) hsub

/-- Witness for the amended C4: the concrete tied pair on the text
`elective emergency` is preserved in table order. -/
theorem C4_sorted_desc_with_table_order_ties_witness :
    List.Sublist [⟨"emergency", 0.3, "positive"⟩, ⟨"elective", -0.3, "negative"⟩]
      (MockClassifier.get_explanation "elective emergency").top_features := by
  have e : mockFeatures "elective emergency" =
      [⟨"emergency", 0.3, "positive"⟩, ⟨"elective", -0.3, "negative"⟩] := by decide
  exact (C4_sorted_desc_with_table_order_ties "elective emergency").1.2
    ⟨"emergency", 0.3, "positive"⟩ ⟨"elective", -0.3, "negative"⟩ (by decide)
    (e ▸ List.Sublist.refl _)

/-! ## C8: preprocessing renders every field, with documented defaults -/

lemma ne_empty_of_length_pos (s : String) (h : 0 < s.length) : s ≠ "" := by
  intro he
  rw [he] at h
  exact absurd h (by decide)

lemma formatMoney_ne_empty (q : ℚ) : formatMoney q ≠ "" := by
  refine ne_empty_of_length_pos _ ?_
  unfold formatMoney
  simp only [String.length_append]
  have e : String.length "." = 1 := rfl
  omega

lemma claimTextOf_ne_empty (c : ClaimData) : claimTextOf c ≠ "" := by
  refine ne_empty_of_length_pos _ ?_
  unfold claimTextOf
  simp only [String.length_append]
  have e : String.length "Claim ID: " = 10 := rfl
  omega

/-- C8: the preprocessor renders a claim record via a total function (the
embedding `claimTextOf` has no failure mode); a missing evidence text renders
as the default `None provided`, missing previous-claim count and duration
render as 0, the rendered defaults are non-empty, the rendered amount and the
whole claim text are never empty, and the all-defaults record renders to the
full fixed multi-line layout. -/
theorem C8_preprocess_total_with_defaults
    (c : ClaimData) (hm : c.medical_reports = none)
    (hp : c.previous_claims = none) (hd : c.policy_duration_months = none) :
    (shownMedical c = "None provided" ∧ shownMedical c ≠ "")
    ∧ (shownPrev c = "0" ∧ shownPrev c ≠ "")
    ∧ (shownDuration c = "0" ∧ shownDuration c ≠ "")
    ∧ (∀ c2 : ClaimData, shownAmount c2 ≠ "" ∧ claimTextOf c2 ≠ "")
    ∧ (∀ c2 : ClaimData, claimTextOf c2 =
        "Claim ID: " ++ shownId c2 ++ "\nPolicy Type: " ++ shownPolicy c2 ++
        "\nClaim Amount: $" ++ shownAmount c2 ++ "\nDescription: " ++ shownDesc c2 ++
        "\nMedical Reports: " ++ shownMedical c2 ++ "\nPrevious Claims: " ++ shownPrev c2 ++
        "\nPolicy Duration: " ++ shownDuration c2 ++ " months")
    ∧ claimTextOf {} =
        "Claim ID: N/A\nPolicy Type: N/A\nClaim Amount: $0.00\nDescription: N/A\nMedical Reports: None provided\nPrevious Claims: 0\nPolicy Duration: 0 months" := by
  have hm' : shownMedical c = "None provided" := by simp [shownMedical, hm]
  have hp' : shownPrev c = "0" := by simp [shownPrev, hp]; rfl
  have hd' : shownDuration c = "0" := by simp [shownDuration, hd]; rfl
  refine ⟨⟨hm', by rw [hm']; decide⟩, ⟨hp', by rw [hp']; decide⟩,
    ⟨hd', by rw [hd']; decide⟩, ?_, fun _ => rfl, by decide⟩
  intro c2
  exact ⟨formatMoney_ne_empty _, claimTextOf_ne_empty _⟩

/-- Witness for C8 at the all-defaults claim record. -/
theorem C8_preprocess_total_with_defaults_witness :
    shownMedical {} = "None provided" ∧ shownMedical ({} : ClaimData) ≠ "" :=
  (C8_preprocess_total_with_defaults {} rfl rfl rfl).1

/-! ## C9: graph orchestrator versus single-pass orchestrator -/

/-- The deterministic fallback classifier with its jitter pinned to zero,
used as the common strategy when comparing the two orchestrators. -/
def mpredict0 (t : String) : ℚ × ℚ := MockClassifier.predict t 0

set_option maxRecDepth 10000 in
/-- C9 counterexample: with identical strategy (fallback classifier with no
jitter, keyword explainer) and identical threshold 0.7, the graph-based agent
and the single-pass demo agent produce different final states on the same
claim — their audit-trail messages are worded differently. -/
theorem C9_counterexample :
    agentProcessClaim mpredict0 MockClassifier.get_explanation 0.7 {} ≠
      demoProcessClaim mpredict0 MockClassifier.get_explanation 0.7 {} := by
  decide

/-- Agreement of two workflow states on every field except the audit trail. -/
def EqExceptMessages (s s' : ClaimState) : Prop :=
  s.claim_data = s'.claim_data ∧ s.claim_text = s'.claim_text
  ∧ s.prediction = s'.prediction ∧ s.confidence = s'.confidence
  ∧ s.shap_explanation = s'.shap_explanation
  ∧ s.decision_reasoning = s'.decision_reasoning
  ∧ s.requires_human_review = s'.requires_human_review

lemma eqx_pre {s s' : ClaimState} (h : EqExceptMessages s s') :
    EqExceptMessages (agentPreprocess s) (demoPreprocess s') := by
  obtain ⟨h1, h2, h3, h4, h5, h6, h7⟩ := h
  exact ⟨by simp [agentPreprocess, demoPreprocess, h1],
    by simp [agentPreprocess, demoPreprocess, h1],
    by simp [agentPreprocess, demoPreprocess, h3],
    by simp [agentPreprocess, demoPreprocess, h4],
    by simp [agentPreprocess, demoPreprocess, h5],
    by simp [agentPreprocess, demoPreprocess, h6],
    by simp [agentPreprocess, demoPreprocess, h7]⟩

lemma eqx_cls (predict : String → ℚ × ℚ) {s s' : ClaimState}
    (h : EqExceptMessages s s') :
    EqExceptMessages (agentClassify predict s) (demoClassify predict s') := by
  obtain ⟨h1, h2, h3, h4, h5, h6, h7⟩ := h
  exact ⟨by simp [agentClassify, demoClassify, h1],
    by simp [agentClassify, demoClassify, h2],
    by simp [agentClassify, demoClassify, h2],
    by simp [agentClassify, demoClassify, h2],
    by simp [agentClassify, demoClassify, h5],
    by simp [agentClassify, demoClassify, h6],
    by simp [agentClassify, demoClassify, h7]⟩

lemma eqx_exp (explain : String → Explanation) {s s' : ClaimState}
    (h : EqExceptMessages s s') :
    EqExceptMessages (explainDecision explain s) (explainDecision explain s') := by
  obtain ⟨h1, h2, h3, h4, h5, h6, h7⟩ := h
  exact ⟨by simp [explainDecision, h1],
    by simp [explainDecision, h2],
    by simp [explainDecision, h3],
    by simp [explainDecision, h4],
    by simp [explainDecision, h2],
    by simp [explainDecision, h2, h3, h4],
    by simp [explainDecision, h7]⟩

lemma eqx_rev (threshold : ℚ) {s s' : ClaimState} (h : EqExceptMessages s s') :
    EqExceptMessages (agentHumanReview threshold s) (demoHumanReview s') := by
  obtain ⟨h1, h2, h3, h4, h5, h6, h7⟩ := h
  exact ⟨by simp [agentHumanReview, demoHumanReview, h1],
    by simp [agentHumanReview, demoHumanReview, h2],
    by simp [agentHumanReview, demoHumanReview, h3],
    by simp [agentHumanReview, demoHumanReview, h4],
    by simp [agentHumanReview, demoHumanReview, h5],
    by simp [agentHumanReview, demoHumanReview, h6],
    by simp [agentHumanReview, demoHumanReview]⟩

lemma eqx_fin {s s' : ClaimState} (h : EqExceptMessages s s') :
    EqExceptMessages (finalizeDecision s) (finalizeDecision s') := by
  obtain ⟨h1, h2, h3, h4, h5, h6, h7⟩ := h
  exact ⟨by simp [finalizeDecision, h1],
    by simp [finalizeDecision, h2],
    by simp [finalizeDecision, h3],
    by simp [finalizeDecision, h4],
    by simp [finalizeDecision, h5],
    by simp [finalizeDecision, h6],
    by simp [finalizeDecision]⟩

/-- C9 amended: (a) the graph executor and the sequential composition agree
whenever they run the same stage functions; (b) the two shipped orchestrators
instantiated with identical strategy and threshold produce final states that
agree on claim text, label, confidence, explanation, reasoning, and review
flag — everything except the wording of the audit trail, which the
counterexample shows to differ. -/
theorem C9_graph_seq_equivalence
    (st : Stages) (s0 : ClaimState)
    (hcheck : ∀ s, st.check s = "human_review" ∨ st.check s = "finalize")
    (predict : String → ℚ × ℚ) (explain : String → Explanation)
    (threshold : ℚ) (c : ClaimData) :
    runGraph st 5 Node.preprocess s0 = seqRun st s0
    ∧ EqExceptMessages (agentProcessClaim predict explain threshold c)
        (demoProcessClaim predict explain threshold c) := by
  refine ⟨runGraph_five st s0 hcheck, ?_⟩
  have hg : agentProcessClaim predict explain threshold c =
      seqRun (agentStages predict explain threshold) (initialState c) :=
    runGraph_five _ _ (fun s => check_confidence_binary threshold s)
  rw [hg]
  have h0 : EqExceptMessages (initialState c) (initialState c) :=
    ⟨rfl, rfl, rfl, rfl, rfl, rfl, rfl⟩
  have h3 : EqExceptMessages
      (explainDecision explain (agentClassify predict (agentPreprocess (initialState c))))
      (explainDecision explain (demoClassify predict (demoPreprocess (initialState c)))) :=
    eqx_exp explain (eqx_cls predict (eqx_pre h0))
  have hconf : (explainDecision explain (agentClassify predict (agentPreprocess
      (initialState c)))).confidence =
      (explainDecision explain (demoClassify predict (demoPreprocess
        (initialState c)))).confidence := h3.2.2.2.1
  simp only [demoProcessClaim, seqRun, agentStages, demoStages, check_confidence]
  by_cases h : (explainDecision explain (agentClassify predict (agentPreprocess
      (initialState c)))).confidence < threshold
  · have hD : (explainDecision explain (demoClassify predict (demoPreprocess
        (initialState c)))).confidence < threshold := by
      rw [← hconf]; exact h
    rw [if_pos h, if_pos hD]
    simp only [if_pos rfl]
    exact eqx_rev threshold h3
  · have hD : ¬ (explainDecision explain (demoClassify predict (demoPreprocess
        (initialState c)))).confidence < threshold := by
      rw [← hconf]; exact h
    rw [if_neg h, if_neg hD]
    rw [if_neg (show ¬ ("finalize" : String) = "human_review" by decide),
      if_neg (show ¬ ("finalize" : String) = "human_review" by decide)]
    exact eqx_fin h3

/-- Witness for the amended C9 at a concrete instantiation: the demo stages
with the no-jitter fallback strategy, threshold 0.7, and the empty claim. -/
theorem C9_graph_seq_equivalence_witness :
    runGraph (demoStages mpredict0 MockClassifier.get_explanation 0.7) 5
        Node.preprocess (initialState {}) =
      seqRun (demoStages mpredict0 MockClassifier.get_explanation 0.7)
        (initialState {}) :=
  (C9_graph_seq_equivalence
    (demoStages mpredict0 MockClassifier.get_explanation 0.7) (initialState {})
    (fun s => check_confidence_binary 0.7 s)
    mpredict0 MockClassifier.get_explanation 0.7 {}).1

end InsuranceClaims
